/-
  Verification of the due-date resolution engine of the ISO_NOTIFIER repository.

  Shallow embedding of:
    - src/utils/due_date_manager.py   (DueDateManager, RegulatoryDatabase,
      HistoricalAnalyzer, LLMDueDateExtractor)
    - src/utils/compliance_mappings.py (static lead-time tables)

  Dates are modelled as integer day numbers in the proleptic Gregorian
  calendar (day 0 = 0000-01-01); `timedelta(days = n)` is integer addition.
  Python floats for confidences are modelled as rationals.
  The nondeterministic clock `datetime.now()` is an explicit parameter `now`.
  The LLM text extractor (the one external collaborator reached from the
  engine) is an explicit function parameter; it may raise, which is modelled
  with `Except Unit`.
-/
import Mathlib

namespace ISONotifier

/-! ## Calendar model -/

/-- Leap year predicate of the Gregorian calendar. -/
def isLeap (y : Nat) : Bool := y % 4 == 0 && (y % 100 != 0 || y % 400 == 0)

/-- Number of leap years among `0, 1, ..., y-1` (year 0 counted as leap). -/
def leapsBefore (y : Nat) : Nat := (y + 3) / 4 - (y + 99) / 100 + (y + 399) / 400

/-- Days in the months strictly before month `m` (1-based) of a year. -/
def daysBeforeMonth (leap : Bool) (m : Nat) : Nat :=
  let base :=
    match m with
    | 1 => 0 | 2 => 31 | 3 => 59 | 4 => 90 | 5 => 120 | 6 => 151
    | 7 => 181 | 8 => 212 | 9 => 243 | 10 => 273 | 11 => 304 | _ => 334
  if leap && m ≥ 3 then base + 1 else base

/-- Number of days of month `m` (1-based) in year `y`. -/
def daysInMonth (y : Nat) (m : Nat) : Nat :=
  match m with
  | 1 => 31 | 2 => if isLeap y then 29 else 28 | 3 => 31 | 4 => 30
  | 5 => 31 | 6 => 30 | 7 => 31 | 8 => 31 | 9 => 30 | 10 => 31
  | 11 => 30 | _ => 31

/-- Day number of the calendar date `y-m-d` (day 0 = 0000-01-01). -/
def toDay (y m d : Nat) : Int :=
  ((365 * y + leapsBefore y + daysBeforeMonth (isLeap y) m + (d - 1) : Nat) : Int)

/-! ## String helpers (models of the Python string operations used) -/

/-- Digit run to the natural number it denotes (model of Python `int`). -/
def digitsToNat (l : List Char) : Nat :=
  l.foldl (fun a c => a * 10 + (c.toNat - 48)) 0

/-- Leftmost maximal digit run of a character list, as a number
(model of `re.search(r'(\d+)', s)` followed by `int`). -/
def firstNat : List Char → Option Nat
  | [] => none
  | c :: rest =>
    if c.isDigit then some (digitsToNat (c :: rest.takeWhile Char.isDigit))
    else firstNat rest

/-- Substring test on character lists (model of Python `needle in hay`). -/
def hasSubstrChars (needle : List Char) : List Char → Bool
  | [] => needle.isEmpty
  | c :: rest => needle.isPrefixOf (c :: rest) || hasSubstrChars needle rest

/-- Substring test on strings. -/
def hasSubstr (hay needle : String) : Bool :=
  hasSubstrChars needle.data hay.data

/-- Model of Python `str.lower()`. -/
def lowerStr (s : String) : String := String.mk (s.data.map Char.toLower)

/-- Model of Python `s.replace(" ", "_")`. -/
def pyReplaceSpace (s : String) : String :=
  String.mk (s.data.map (fun c => if c = ' ' then '_' else c))

/-- Leftmost match of the regex `ISO\s*(\d+)`: scan for a literal `ISO`,
skip whitespace, and require at least one digit; on failure restart one
character further right.  Returns the captured digit run. -/
def findISO : List Char → Option String
  | [] => none
  | c :: rest =>
    match c, rest with
    | 'I', 'S' :: 'O' :: rest2 =>
      let afterWs := rest2.dropWhile Char.isWhitespace
      let ds := afterWs.takeWhile Char.isDigit
      if ds.isEmpty then findISO rest else some (String.mk ds)
    | _, _ => findISO rest

/-! ## Data model (`due_date_manager.py` lines 17-36) -/

/-- `CalculationMethod` enum. -/
inductive CalculationMethod where
  | regulatory_database
  | llm_extraction
  | historical_analysis
  | static_mapping
  | conservative_default
deriving DecidableEq, Repr

/-- `DueDateResult` dataclass; `due_date` is a day number. -/
structure DueDateResult where
  due_date : Int
  method : CalculationMethod
  confidence : ℚ
  validity_period : Option String
  source_urls : List String
  calculation_notes : String
  warning : Option String := none
deriving DecidableEq, Repr

/-- A search-result document as consumed by the engine (`url`, `content`). -/
structure Source where
  url : String
  content : String
deriving DecidableEq, Repr

/-- A validity claim produced by `LLMDueDateExtractor.extract_validity_period`. -/
structure Claim where
  validity_period : String
  source_url : String
deriving DecidableEq, Repr

/-- The value of `item.get('Application Date')`: a `datetime`, a `date`,
an arbitrary string, or absent (Python `None`). -/
inductive DateInput where
  | dt (day : Int)
  | dateOnly (day : Int)
  | str (s : String)
  | missing
deriving DecidableEq, Repr

/-- An input item as read by the engine: `item['Title']` and
`item.get('Application Date')`. -/
structure Item where
  title : String
  application_date : DateInput
deriving DecidableEq, Repr

/-- The pluggable text extractor
(`LLMDueDateExtractor.extract_validity_period`); it may raise. -/
def LLMExtractor : Type :=
  String → String → String → Except Unit (Option Claim)

/-- An extractor that always returns no claim. -/
def pureNoneExtractor : LLMExtractor := fun _ _ _ => Except.ok none

/-! ## `compliance_mappings.py` -/

/-- Association-list read with default (model of Python `dict.get(k, d)`). -/
def dictGet {α : Type} (table : List (String × α)) (k : String) (dflt : α) : α :=
  ((table.find? (fun p => p.1 == k)).map (fun p => p.2)).getD dflt

def ISO_LEAD_TIMES : List (String × Nat) :=
  [("ISO 9001 - Quality Management", 90),
   ("ISO 14001 - Environmental Management", 90),
   ("ISO 27001 - Information Security Management", 120),
   ("ISO 45001 - Occupational Health & Safety", 90),
   ("ISO 22000 - Food Safety Management", 90),
   ("ISO 50001 - Energy Management", 120),
   ("ISO 13485 - Medical Devices Quality Management", 120),
   ("ISO 20000 - IT Service Management", 120)]

def ISO_ACTIVITY_ADJUSTMENTS : List (String × Int) :=
  [("New Certification", 30),
   ("Recertification", 0),
   ("Surveillance Audit", -30),
   ("Gap Analysis", -60),
   ("Internal Audit Preparation", -45),
   ("Document Review", -75),
   ("Corrective Action Implementation", -30)]

def INDIA_COMPLIANCE_LEAD_TIMES : List (String × Nat) :=
  [("Bureau of Indian Standards (BIS)", 180),
   ("Central Pollution Control Board (CPCB)", 120),
   ("Environmental Clearance", 270),
   ("Factory Act Compliance", 60),
   ("Labour Law Compliance", 60),
   ("GST Compliance", 30),
   ("Import/Export Regulations", 90),
   ("Industry-Specific License", 120),
   ("State-Level Compliance", 90)]

def DEFAULT_LEAD_TIME : Nat := 30

/-- `get_iso_due_date` (start date supplied by the caller). -/
def get_iso_due_date (standard_name activity_type : String) (start_date : Int) : Int :=
  start_date + ((dictGet ISO_LEAD_TIMES standard_name DEFAULT_LEAD_TIME : Nat) : Int)
             + dictGet ISO_ACTIVITY_ADJUSTMENTS activity_type 0

/-- `get_india_due_date` (start date supplied by the caller). -/
def get_india_due_date (category_name : String) (start_date : Int) : Int :=
  start_date + ((dictGet INDIA_COMPLIANCE_LEAD_TIMES category_name DEFAULT_LEAD_TIME : Nat) : Int)

/-! ## `RegulatoryDatabase` and `HistoricalAnalyzer` -/

structure RegEntry where
  lead_time_days : Nat
  validity_period : String
  confidence : ℚ
deriving DecidableEq, Repr

/-- `RegulatoryDatabase.lookup`: the table holds the single key `ISO_9001`;
a falsy (`None` or empty) standard yields no entry. -/
def regulatory_db_lookup (standard : Option String) : Option RegEntry :=
  match standard with
  | none => none
  | some s =>
    if s.isEmpty then none
    else if pyReplaceSpace s = "ISO_9001" then
      some ⟨1095, "3 Years", 99/100⟩
    else none

structure HistAnalysis where
  confidence : ℚ
  median_processing_days : Nat
deriving DecidableEq, Repr

/-- `HistoricalAnalyzer.analyze_processing_times`: a stub returning
confidence 0.0 and median 365 regardless of input. -/
def analyze_processing_times (_items : List Int) : HistAnalysis :=
  ⟨0, 365⟩

/-! ## `DueDateManager` helper methods -/

/-- `_parse_application_date`; `now` is the value `datetime.now()` would
return (used only when parsing fails). `str(None)` is `"None"`, which never
parses, so a missing date also falls back to `now`. -/
def _parse_application_date (now : Int) : DateInput → Int
  | .dt day => day
  | .dateOnly day => day
  | .str s => match parseYMD s with
              | some day => day
              | none => now
  | .missing => now
where
  /-- Model of `datetime.strptime(s, '%Y-%m-%d')` followed by `datetime`
  construction.  CPython's `_strptime` regex is
  `(\d\d\d\d)-(1[0-2]|0[1-9]|[1-9])-(3[01]|[12]\d|0[1-9]|[1-9]| [1-9])`
  matched against the whole string: the year is exactly 4 digits, the
  month 1-2 digits valued 1-12, the day 1-2 digits valued 1-31 or a space
  followed by a nonzero digit.  `datetime` then rejects year 0 (MINYEAR
  is 1) and a day beyond the month's length; both raise `ValueError`,
  which the caller's bare `except` turns into the `datetime.now()`
  fallback, i.e. `none` here. -/
  parseYMD (s : String) : Option Int :=
    let l := s.data
    let ys := l.takeWhile Char.isDigit
    let rest1 := l.dropWhile Char.isDigit
    if ys.length ≠ 4 then none else
    match rest1 with
    | '-' :: r2 =>
      let ms := r2.takeWhile Char.isDigit
      let r3 := r2.dropWhile Char.isDigit
      if ms.length < 1 || ms.length > 2 then none else
      match r3 with
      | '-' :: r4 =>
        let ds := r4.takeWhile Char.isDigit
        let r5 := r4.dropWhile Char.isDigit
        let dayVal : Option Nat :=
          if 1 ≤ ds.length && ds.length ≤ 2 && r5.isEmpty then
            some (digitsToNat ds)
          else
            match r4 with
            | [' ', c] =>
              if c.isDigit && c != '0' then some (digitsToNat [c]) else none
            | _ => none
        match dayVal with
        | none => none
        | some d =>
          let y := digitsToNat ys
          let m := digitsToNat ms
          if 1 ≤ y && 1 ≤ m && m ≤ 12 && 1 ≤ d && d ≤ daysInMonth y m then
            some (toDay y m d)
          else none
      | _ => none
    | _ => none

/-- `_parse_certification_info`, restricted to the `standard` field
(the only one consumed downstream with a non-constant value):
`re.search(r'ISO\s*(\d+)', title)` giving `"ISO <digits>"`. -/
def _parse_certification_info (title : String) : Option String :=
  (findISO title.data).map (fun ds => "ISO " ++ ds)

def official_domains : List String :=
  ["iso.org", "bis.gov.in", "bsigroup.com", "tuv.com", "gov.in"]

/-- Whether a URL contains one of the official domain strings
(`any(o in r.get('url','').lower() for o in official)`). -/
def isOfficialURL (url : String) : Bool :=
  official_domains.any (fun o => hasSubstr (lowerStr url) o)

/-- `_filter_official_sources`. -/
def _filter_official_sources (results : List Source) : List Source :=
  results.filter (fun r => isOfficialURL r.url)

/-- `_calculate_from_validity_period`: first integer in the label
(default 1), times 365 if the label contains `year` case-insensitively,
else times 30, added to the start day. -/
def _calculate_from_validity_period (start : Int) (period : String) : Int :=
  let val : Nat :=
    match firstNat period.data with
    | some n => n
    | none => 1
  if hasSubstr (lowerStr period) "year" then start + (val : Int) * 365
  else start + (val : Int) * 30

/-! ## Consensus (`_find_consensus`, `Counter.most_common(1)`) -/

/-- Left-to-right maximum selection, replacing the incumbent only on a
strictly larger count — so the earliest-seen candidate survives ties,
exactly as the stable `heapq.nlargest` does inside `Counter.most_common`
(which iterates the counter's keys in first-occurrence order). -/
def pickBest (cnt : String → Nat) : String × Nat → List String → String × Nat
  | best, [] => best
  | best, x :: xs =>
    pickBest cnt (if best.2 < cnt x then (x, cnt x) else best) xs

/-- `Counter(l).most_common(1)`: the most frequent element together with
its count, ties broken in favour of first occurrence.  Scanning the raw
list instead of the deduplicated key sequence is extensionally identical:
a repeated label never has a strictly larger count than the running best,
which already includes that label's full count from its first occurrence. -/
def most_common (l : List String) : Option (String × Nat) :=
  match l with
  | [] => none
  | u :: us => some (pickBest (fun x => l.count x) (u, l.count u) us)

/-- `_find_consensus`. -/
def _find_consensus (data : List Claim) : Option (String × ℚ) :=
  if data.isEmpty then none
  else
    match most_common (data.map Claim.validity_period) with
    | none => none
    | some (w, n) => some (w, ((n : ℚ) / (data.length : ℚ)) * (9/10))

/-! ## The five strategies -/

/-- `_try_regulatory_database` (pure: no exception possible). -/
def _try_regulatory_database (title : String) (appDate : Int) : Option DueDateResult :=
  match _parse_certification_info title with
  | none => none
  | some std =>
    match regulatory_db_lookup (some std) with
    | none => none
    | some e =>
      some { due_date := appDate + (e.lead_time_days : Int)
             method := .regulatory_database
             confidence := e.confidence
             validity_period := some e.validity_period
             source_urls := []
             calculation_notes :=
               "Found in official regulatory database for " ++ std ++ "."
             warning := none }

/-- `_try_llm_extraction`: filter to official sources, run the extractor on
the first 3, build a consensus.  An extractor exception aborts the whole
strategy (there is no per-document handler in this method). -/
def _try_llm_extraction (extractor : LLMExtractor) (title : String)
    (appDate : Int) (search_results : List Source) :
    Except Unit (Option DueDateResult) :=
  let official := _filter_official_sources search_results
  if official.isEmpty then .ok none
  else
    match (official.take 3).mapM (fun s => extractor s.content s.url title) with
    | .error e => .error e
    | .ok exts =>
      let extracted_data := exts.filterMap id
      match _find_consensus extracted_data with
      | none => .ok none
      | some (period, conf) =>
        .ok (some { due_date := _calculate_from_validity_period appDate period
                    method := .llm_extraction
                    confidence := conf
                    validity_period := some period
                    source_urls := extracted_data.map Claim.source_url
                    calculation_notes :=
                      "Consensus reached from " ++ toString extracted_data.length
                        ++ " official web sources."
                    warning := none })

/-- `_try_historical_analysis`: always called on an empty history. -/
def _try_historical_analysis (appDate : Int) : Option DueDateResult :=
  let analysis := analyze_processing_times []
  if analysis.confidence < 1/2 then none
  else
    some { due_date := appDate + (analysis.median_processing_days : Int)
           method := .historical_analysis
           confidence := analysis.confidence
           validity_period := some "Based on past items"
           source_urls := []
           calculation_notes := "Based on historical patterns for similar items."
           warning := none }

/-- `_try_static_mapping`: ISO titles go through `get_iso_due_date` with the
extracted standard (or the full title when none) and activity
`"New Certification"`; all other titles go through `get_india_due_date`.
The import always succeeds in this repository, and both mapping functions
are total, so this strategy always returns a result. -/
def _try_static_mapping (title : String) (appDate : Int) : Option DueDateResult :=
  let std := _parse_certification_info title
  let dd : Int :=
    if hasSubstr title "ISO" then
      get_iso_due_date (std.getD title) "New Certification" appDate
    else
      get_india_due_date title appDate
  some { due_date := dd
         method := .static_mapping
         confidence := 3/5
         validity_period := some "Default mapping"
         source_urls := []
         calculation_notes := "Used static default lead times as fallback."
         warning := none }

/-- `_conservative_default`. -/
def _conservative_default (appDate : Int) : DueDateResult :=
  { due_date := appDate + 365
    method := .conservative_default
    confidence := 2/5
    validity_period := some "1 Year (Default)"
    source_urls := []
    calculation_notes :=
      "Unable to find specific timeline. Applied 1-year conservative buffer."
    warning := none }

/-! ## The orchestrator (`calculate_due_date`) -/

/-- `CONFIDENCE_THRESHOLDS` dictionary. -/
def CONFIDENCE_THRESHOLDS : CalculationMethod → ℚ
  | .regulatory_database => 95/100
  | .llm_extraction => 80/100
  | .historical_analysis => 70/100
  | .static_mapping => 60/100
  | .conservative_default => 40/100

/-- Result of the `except` surrounding a strategy attempt: a raised
exception is the same as no usable result. -/
def caught (s : Except Unit (Option DueDateResult)) : Option DueDateResult :=
  match s with
  | .ok r => r
  | .error _ => none

/-- `if result and result.confidence >= threshold`. -/
def acceptThresh (r : Option DueDateResult) (t : ℚ) : Option DueDateResult :=
  match r with
  | some res => if t ≤ res.confidence then some res else none
  | none => none

/-- Body of `calculate_due_date` after the application date has been
parsed (lines 76-110 of `due_date_manager.py`): the five strategies in
priority order.  Strategies 1, 3, 4 are pure in this code base; strategy 2
may raise inside the extractor and is caught at its boundary; strategy 2 is
skipped when `search_results` is falsy; strategy 4 has no threshold check;
strategy 5 is unconditional. -/
def resolve_with_date (extractor : LLMExtractor) (title : String)
    (appDate : Int) (search_results : List Source) : DueDateResult :=
  match acceptThresh (_try_regulatory_database title appDate)
          (CONFIDENCE_THRESHOLDS .regulatory_database) with
  | some r => r
  | none =>
    match acceptThresh
            (if search_results.isEmpty then none
             else caught (_try_llm_extraction extractor title appDate search_results))
            (CONFIDENCE_THRESHOLDS .llm_extraction) with
    | some r => r
    | none =>
      match acceptThresh (_try_historical_analysis appDate)
              (CONFIDENCE_THRESHOLDS .historical_analysis) with
      | some r => r
      | none =>
        match _try_static_mapping title appDate with
        | some r => r
        | none => _conservative_default appDate

/-- `DueDateManager.calculate_due_date`. -/
def calculate_due_date (extractor : LLMExtractor) (now : Int) (item : Item)
    (search_results : List Source) : DueDateResult :=
  resolve_with_date extractor item.title
    (_parse_application_date now item.application_date) search_results

/-- The orchestrator control-flow abstracted over the four fallible
strategy outcomes (used to state claims about exception handling and
priority order for arbitrary strategy behaviour). -/
def resolve_outcomes (s1 s2 s3 s4 : Except Unit (Option DueDateResult))
    (appDate : Int) : DueDateResult :=
  match acceptThresh (caught s1) (CONFIDENCE_THRESHOLDS .regulatory_database) with
  | some r => r
  | none =>
    match acceptThresh (caught s2) (CONFIDENCE_THRESHOLDS .llm_extraction) with
    | some r => r
    | none =>
      match acceptThresh (caught s3) (CONFIDENCE_THRESHOLDS .historical_analysis) with
      | some r => r
      | none =>
        match caught s4 with
        | some r => r
        | none => _conservative_default appDate

/-! ## Auxiliary definitions used in the statements -/

/-- Maximum of `cnt` over a list (0 on the empty list). -/
def listMax (cnt : String → Nat) : List String → Nat
  | [] => 0
  | x :: xs => max (cnt x) (listMax cnt xs)

/-- The maximal occurrence count among the labels of `l`. -/
def maxCount (l : List String) : Nat := listMax (fun x => l.count x) l

/-- The leading integer of a validity-period label, defaulting to 1. -/
def leading_int (period : String) : Nat := (firstNat period.data).getD 1

/-- Whether `_parse_application_date` succeeds without falling back to the
clock: a `datetime`, a `date`, or a string accepted by the
`%Y-%m-%d` parse. -/
def date_input_parses : DateInput → Bool
  | .dt _ => true
  | .dateOnly _ => true
  | .str s => (_parse_application_date.parseYMD s).isSome
  | .missing => false

/-- A strategy result with full confidence, used to instantiate the
priority-order statements at a concrete input. -/
def dummyResult : DueDateResult :=
  { due_date := 0
    method := .regulatory_database
    confidence := 1
    validity_period := none
    source_urls := []
    calculation_notes := ""
    warning := none }

/-! ## Helper lemmas -/

lemma acceptThresh_eq_some {r : Option DueDateResult} {t : ℚ} {x : DueDateResult}
    (h : acceptThresh r t = some x) : r = some x ∧ t ≤ x.confidence := by
  match r with
  | none => simp [acceptThresh] at h
  | some res =>
    simp only [acceptThresh] at h
    by_cases hc : t ≤ res.confidence
    · rw [if_pos hc] at h
      injection h with h
      subst h
      exact ⟨rfl, hc⟩
    · rw [if_neg hc] at h
      exact absurd h (by simp)

lemma caught_eq_some {s : Except Unit (Option DueDateResult)} {x : DueDateResult}
    (h : caught s = some x) : s = .ok (some x) := by
  match s with
  | .ok r => simp only [caught] at h; rw [h]
  | .error e => simp [caught] at h

/-- Case analysis on the orchestrator: the produced result comes from one
of the five strategies. -/
lemma resolve_with_date_cases (P : DueDateResult → Prop) (e : LLMExtractor)
    (t : String) (d : Int) (ss : List Source)
    (h1 : ∀ r, _try_regulatory_database t d = some r → P r)
    (h2 : ∀ r, _try_llm_extraction e t d ss = .ok (some r) → P r)
    (h3 : ∀ r, _try_historical_analysis d = some r → P r)
    (h4 : ∀ r, _try_static_mapping t d = some r → P r)
    (h5 : P (_conservative_default d)) :
    P (resolve_with_date e t d ss) := by
  unfold resolve_with_date
  split
  · next r1 hr1 => exact h1 r1 (acceptThresh_eq_some hr1).1
  · split
    · next r2 hr2 =>
      obtain ⟨hin, _⟩ := acceptThresh_eq_some hr2
      by_cases hss : ss.isEmpty
      · rw [if_pos hss] at hin; exact absurd hin (by simp)
      · rw [if_neg hss] at hin
        exact h2 r2 (caught_eq_some hin)
    · split
      · next r3 hr3 => exact h3 r3 (acceptThresh_eq_some hr3).1
      · split
        · next r4 hr4 => exact h4 r4 hr4
        · exact h5

/-- Strategy 3 always declines: the analyzer stub reports confidence 0,
which is below the internal 0.5 cutoff. -/
lemma hist_none (d : Int) : _try_historical_analysis d = none := by
  unfold _try_historical_analysis analyze_processing_times
  rw [if_pos (by norm_num)]

lemma calc_period_branch (d : Int) (v : Nat) (c : Bool) :
    d ≤ if c = true then d + (v:Int)*365 else d + (v:Int)*30 := by
  cases c
  · rw [if_neg (by simp)]
    have : (0:Int) ≤ (v:Int)*30 := by positivity
    omega
  · rw [if_pos rfl]
    have : (0:Int) ≤ (v:Int)*365 := by positivity
    omega

lemma calc_period_ge (d : Int) (p : String) :
    d ≤ _calculate_from_validity_period d p :=
  calc_period_branch d
    (match firstNat p.data with | some n => n | none => 1)
    (hasSubstr (lowerStr p) "year")

lemma try_reg_some {t : String} {d : Int} {r : DueDateResult}
    (h : _try_regulatory_database t d = some r) :
    r.method = .regulatory_database ∧ d ≤ r.due_date := by
  unfold _try_regulatory_database at h
  split at h
  · exact absurd h (by simp)
  · split at h
    · exact absurd h (by simp)
    · next e he =>
      injection h with h
      subst h
      refine ⟨rfl, ?_⟩
      have : (0:Int) ≤ (e.lead_time_days : Int) := Int.natCast_nonneg _
      simp only []
      omega

lemma try_llm_some {e : LLMExtractor} {t : String} {d : Int} {ss : List Source}
    {r : DueDateResult}
    (h : _try_llm_extraction e t d ss = .ok (some r)) :
    r.method = .llm_extraction ∧ d ≤ r.due_date := by
  simp only [_try_llm_extraction] at h
  split at h
  · exact absurd h (by simp)
  · split at h
    · exact absurd h (by simp)
    · split at h
      · exact absurd h (by simp)
      · next period conf hcons =>
        injection h with h
        injection h with h
        subst h
        exact ⟨rfl, calc_period_ge d period⟩

lemma iso_adj_newcert : dictGet ISO_ACTIVITY_ADJUSTMENTS "New Certification" 0 = 30 := rfl

lemma try_static_some {t : String} {d : Int} {r : DueDateResult}
    (h : _try_static_mapping t d = some r) :
    r.method = .static_mapping ∧ d ≤ r.due_date := by
  simp only [_try_static_mapping] at h
  injection h with h
  subst h
  refine ⟨rfl, ?_⟩
  simp only []
  split
  · unfold get_iso_due_date
    rw [iso_adj_newcert]
    have : (0:Int) ≤ ((dictGet ISO_LEAD_TIMES
        ((_parse_certification_info t).getD t) DEFAULT_LEAD_TIME : Nat) : Int) :=
      Int.natCast_nonneg _
    omega
  · unfold get_india_due_date
    have : (0:Int) ≤ ((dictGet INDIA_COMPLIANCE_LEAD_TIMES t DEFAULT_LEAD_TIME : Nat) : Int) :=
      Int.natCast_nonneg _
    omega

/-! ## Lemmas about the consensus scan -/

lemma le_listMax (cnt : String → Nat) :
    ∀ {xs : List String} {x : String}, x ∈ xs → cnt x ≤ listMax cnt xs := by
  intro xs
  induction xs with
  | nil => intro x h; cases h
  | cons y ys ih =>
    intro x h
    rcases List.mem_cons.mp h with rfl | h
    · simp only [listMax]; omega
    · have := ih h
      simp only [listMax]; omega

lemma pickBest_snd (cnt : String → Nat) :
    ∀ (xs : List String) (b : String × Nat),
      (pickBest cnt b xs).2 = max b.2 (listMax cnt xs) := by
  intro xs
  induction xs with
  | nil => intro b; simp [pickBest, listMax]
  | cons x xs ih =>
    intro b
    simp only [pickBest, listMax]
    rw [ih]
    by_cases h : b.2 < cnt x
    · rw [if_pos h]; simp only []; omega
    · rw [if_neg h]; omega

lemma pickBest_find (cnt : String → Nat) :
    ∀ (xs : List String) (b : String × Nat), cnt b.1 = b.2 →
      (b.1 :: xs).find? (fun z => cnt z == max b.2 (listMax cnt xs)) =
        some (pickBest cnt b xs).1 := by
  intro xs
  induction xs with
  | nil =>
    intro b hb
    have hmax : max b.2 (listMax cnt []) = b.2 := by simp [listMax]
    simp only [hmax, pickBest]
    rw [List.find?_cons_of_pos _ (by simp [hb])]
  | cons x xs ih =>
    intro b hb
    by_cases h : b.2 < cnt x
    · -- the head of the tail strictly improves on the incumbent
      have hmax : max b.2 (listMax cnt (x :: xs)) = max (cnt x) (listMax cnt xs) := by
        simp only [listMax]; omega
      have hstep : pickBest cnt b (x :: xs) = pickBest cnt (x, cnt x) xs := by
        simp only [pickBest, if_pos h]
      have hb1 : (fun z => cnt z == max b.2 (listMax cnt (x :: xs))) b.1 = false := by
        simp only [hmax, beq_eq_false_iff_ne, ne_eq]
        omega
      rw [hstep, List.find?_cons_of_neg _ (by simp [hb1])]
      have := ih (x, cnt x) rfl
      simp only [hmax]
      exact this
    · -- the incumbent survives the head of the tail
      have hmax : max b.2 (listMax cnt (x :: xs)) = max b.2 (listMax cnt xs) := by
        simp only [listMax]; omega
      have hstep : pickBest cnt b (x :: xs) = pickBest cnt b xs := by
        simp only [pickBest, if_neg h]
      have ihb := ih b hb
      rw [hstep]
      simp only [hmax]
      by_cases hb1 : cnt b.1 = max b.2 (listMax cnt xs)
      · rw [List.find?_cons_of_pos _ (by simp [hb1])]
        rw [List.find?_cons_of_pos _ (by simp [hb1])] at ihb
        exact ihb
      · have hx : cnt x ≠ max b.2 (listMax cnt xs) := by omega
        rw [List.find?_cons_of_neg _ (by simp [hb1]),
            List.find?_cons_of_neg _ (by simp [hx])]
        rw [List.find?_cons_of_neg _ (by simp [hb1])] at ihb
        exact ihb

/-- Characterisation of `Counter(l).most_common(1)`: on a non-empty list it
returns the first-seen label whose count is maximal, with its count. -/
lemma most_common_spec (l : List String) (hl : l ≠ []) :
    ∃ w, l.find? (fun z => l.count z == maxCount l) = some w ∧
      most_common l = some (w, l.count w) := by
  match l, hl with
  | u :: us, _ =>
    have hfind := pickBest_find (fun x => (u :: us).count x) us (u, (u :: us).count u) rfl
    have hsnd := pickBest_snd (fun x => (u :: us).count x) us (u, (u :: us).count u)
    have hmaxdef : maxCount (u :: us)
        = max ((u :: us).count u) (listMax (fun x => (u :: us).count x) us) := rfl
    have hfind2 : (u :: us).find? (fun z => (u :: us).count z == maxCount (u :: us))
        = some (pickBest (fun x => (u :: us).count x) (u, (u :: us).count u) us).1 := by
      simp only [hmaxdef]
      exact hfind
    refine ⟨_, hfind2, ?_⟩
    have hcnt2 : (u :: us).count
        (pickBest (fun x => (u :: us).count x) (u, (u :: us).count u) us).1
        = maxCount (u :: us) := by
      simpa using List.find?_some hfind2
    have hsnd2 : (pickBest (fun x => (u :: us).count x) (u, (u :: us).count u) us).2
        = maxCount (u :: us) := by
      rw [hmaxdef]; exact hsnd
    show some (pickBest (fun x => (u :: us).count x) (u, (u :: us).count u) us) = _
    rw [hcnt2, ← hsnd2]

/-- The orchestrator is exactly the exception-guarded cascade
`resolve_outcomes` applied to the four strategy attempts (strategy 2 is
skipped when no search results are supplied). -/
lemma calc_eq_resolve_outcomes (e : LLMExtractor) (now : Int) (item : Item)
    (ss : List Source) :
    calculate_due_date e now item ss =
      resolve_outcomes
        (.ok (_try_regulatory_database item.title
               (_parse_application_date now item.application_date)))
        (if ss.isEmpty then .ok none
         else _try_llm_extraction e item.title
               (_parse_application_date now item.application_date) ss)
        (.ok (_try_historical_analysis
               (_parse_application_date now item.application_date)))
        (.ok (_try_static_mapping item.title
               (_parse_application_date now item.application_date)))
        (_parse_application_date now item.application_date) := by
  unfold calculate_due_date resolve_with_date resolve_outcomes
  cases ss.isEmpty <;> rfl

/-- When the application-date input parses, the clock value is never
consulted. -/
lemma parse_indep {i : DateInput} (h : date_input_parses i = true) (n1 n2 : Int) :
    _parse_application_date n1 i = _parse_application_date n2 i := by
  cases i with
  | dt day => rfl
  | dateOnly day => rfl
  | str s =>
    simp only [date_input_parses] at h
    obtain ⟨v, hv⟩ := Option.isSome_iff_exists.mp h
    simp only [_parse_application_date, hv]
  | missing => simp [date_input_parses] at h

/-! ## Claim theorems -/

/-- C1: for every input item, clock value, search-result list and
extractor behaviour, `calculate_due_date` returns a `DueDateResult` by
running the exception-guarded cascade `resolve_outcomes`; in that cascade
an exception raised inside any strategy is caught at that strategy's
boundary and is equivalent to the strategy producing no usable result;
when all four strategies fail the result degrades to
`_conservative_default`, which is a fixed record (confidence 0.4) and
cannot itself fail. -/
theorem c1_never_raises_conservative_floor :
    (∀ (e : LLMExtractor) (now : Int) (item : Item) (ss : List Source),
       calculate_due_date e now item ss =
         resolve_outcomes
           (.ok (_try_regulatory_database item.title
                  (_parse_application_date now item.application_date)))
           (if ss.isEmpty then .ok none
            else _try_llm_extraction e item.title
                  (_parse_application_date now item.application_date) ss)
           (.ok (_try_historical_analysis
                  (_parse_application_date now item.application_date)))
           (.ok (_try_static_mapping item.title
                  (_parse_application_date now item.application_date)))
           (_parse_application_date now item.application_date)) ∧
    (∀ s2 s3 s4 d, resolve_outcomes (.error ()) s2 s3 s4 d
        = resolve_outcomes (.ok none) s2 s3 s4 d) ∧
    (∀ s1 s3 s4 d, resolve_outcomes s1 (.error ()) s3 s4 d
        = resolve_outcomes s1 (.ok none) s3 s4 d) ∧
    (∀ s1 s2 s4 d, resolve_outcomes s1 s2 (.error ()) s4 d
        = resolve_outcomes s1 s2 (.ok none) s4 d) ∧
    (∀ s1 s2 s3 d, resolve_outcomes s1 s2 s3 (.error ()) d
        = resolve_outcomes s1 s2 s3 (.ok none) d) ∧
    (∀ d, resolve_outcomes (.error ()) (.error ()) (.error ()) (.error ()) d
        = _conservative_default d) ∧
    (∀ d, _conservative_default d =
      { due_date := d + 365
        method := .conservative_default
        confidence := 2/5
        validity_period := some "1 Year (Default)"
        source_urls := []
        calculation_notes :=
          "Unable to find specific timeline. Applied 1-year conservative buffer."
        warning := none }) :=
  ⟨calc_eq_resolve_outcomes,
   fun _ _ _ _ => rfl,
   fun _ _ _ _ => rfl,
   fun _ _ _ _ => rfl,
   fun _ _ _ _ => rfl,
   fun _ => rfl,
   fun _ => rfl⟩

/-- C2: for every extractor behaviour, clock value, item and source list,
the due date produced by `calculate_due_date` is at or after the parsed
application date — every strategy adds a non-negative day offset. -/
theorem c2_due_date_at_or_after_application :
    ∀ (e : LLMExtractor) (now : Int) (item : Item) (ss : List Source),
      _parse_application_date now item.application_date ≤
        (calculate_due_date e now item ss).due_date := by
  intro e now item ss
  unfold calculate_due_date
  exact resolve_with_date_cases
    (fun r => _parse_application_date now item.application_date ≤ r.due_date)
    e item.title _ ss
    (fun r h => (try_reg_some h).2)
    (fun r h => (try_llm_some h).2)
    (fun r h => by rw [hist_none] at h; exact absurd h (by simp))
    (fun r h => (try_static_some h).2)
    (by show _ ≤ _ + (365:Int); omega)

/-- C3: the strategies are tried in the fixed order Regulatory Database
(threshold 0.95), LLM Extraction (0.80), Historical Analysis (0.70),
Static Mapping, Conservative Default; the first of strategies 1-3 whose
result's confidence meets or exceeds its own threshold is returned
immediately, and Static Mapping is returned the moment it yields any
result, with no threshold check. -/
theorem c3_priority_order_thresholds :
    (∀ (e : LLMExtractor) (now : Int) (item : Item) (ss : List Source),
       calculate_due_date e now item ss =
         resolve_outcomes
           (.ok (_try_regulatory_database item.title
                  (_parse_application_date now item.application_date)))
           (if ss.isEmpty then .ok none
            else _try_llm_extraction e item.title
                  (_parse_application_date now item.application_date) ss)
           (.ok (_try_historical_analysis
                  (_parse_application_date now item.application_date)))
           (.ok (_try_static_mapping item.title
                  (_parse_application_date now item.application_date)))
           (_parse_application_date now item.application_date)) ∧
    (CONFIDENCE_THRESHOLDS .regulatory_database = 95/100 ∧
     CONFIDENCE_THRESHOLDS .llm_extraction = 80/100 ∧
     CONFIDENCE_THRESHOLDS .historical_analysis = 70/100) ∧
    (∀ s1 s2 s3 s4 d r, caught s1 = some r →
       CONFIDENCE_THRESHOLDS .regulatory_database ≤ r.confidence →
       resolve_outcomes s1 s2 s3 s4 d = r) ∧
    (∀ s1 s2 s3 s4 d r,
       acceptThresh (caught s1) (CONFIDENCE_THRESHOLDS .regulatory_database) = none →
       caught s2 = some r →
       CONFIDENCE_THRESHOLDS .llm_extraction ≤ r.confidence →
       resolve_outcomes s1 s2 s3 s4 d = r) ∧
    (∀ s1 s2 s3 s4 d r,
       acceptThresh (caught s1) (CONFIDENCE_THRESHOLDS .regulatory_database) = none →
       acceptThresh (caught s2) (CONFIDENCE_THRESHOLDS .llm_extraction) = none →
       caught s3 = some r →
       CONFIDENCE_THRESHOLDS .historical_analysis ≤ r.confidence →
       resolve_outcomes s1 s2 s3 s4 d = r) ∧
    (∀ s1 s2 s3 s4 d r,
       acceptThresh (caught s1) (CONFIDENCE_THRESHOLDS .regulatory_database) = none →
       acceptThresh (caught s2) (CONFIDENCE_THRESHOLDS .llm_extraction) = none →
       acceptThresh (caught s3) (CONFIDENCE_THRESHOLDS .historical_analysis) = none →
       caught s4 = some r →
       resolve_outcomes s1 s2 s3 s4 d = r) := by
  refine ⟨calc_eq_resolve_outcomes, ⟨rfl, rfl, rfl⟩, ?_, ?_, ?_, ?_⟩
  · intro s1 s2 s3 s4 d r h1 h2
    unfold resolve_outcomes
    rw [h1]
    simp only [acceptThresh]
    rw [if_pos h2]
  · intro s1 s2 s3 s4 d r h1 h2 h3
    unfold resolve_outcomes
    rw [h1, h2]
    simp only [acceptThresh]
    rw [if_pos h3]
  · intro s1 s2 s3 s4 d r h1 h2 h3 h4
    unfold resolve_outcomes
    rw [h1, h2, h3]
    simp only [acceptThresh]
    rw [if_pos h4]
  · intro s1 s2 s3 s4 d r h1 h2 h3 h4
    unfold resolve_outcomes
    rw [h1, h2, h3, h4]

/-- Witness for C3: a full-confidence regulatory result is returned as-is. -/
theorem c3_witness :
    resolve_outcomes (.ok (some dummyResult)) (.ok none) (.ok none) (.ok none) 0
      = dummyResult :=
  c3_priority_order_thresholds.2.2.1 _ _ _ _ _ _ rfl
    (by norm_num [CONFIDENCE_THRESHOLDS, dummyResult])

/-- C5: the conservative-default strategy always returns a result whose
due date is the application date plus exactly 365 days, whose confidence
is exactly 0.4, whose method is CONSERVATIVE_DEFAULT and whose validity
label is "1 Year (Default)"; it is the value produced when every earlier
strategy declines. -/
theorem c5_conservative_default_values :
    ∀ d : Int,
      (_conservative_default d).due_date = d + 365 ∧
      (_conservative_default d).confidence = 2/5 ∧
      (_conservative_default d).method = CalculationMethod.conservative_default ∧
      (_conservative_default d).validity_period = some "1 Year (Default)" ∧
      resolve_outcomes (.ok none) (.ok none) (.ok none) (.ok none) d
        = _conservative_default d :=
  fun _ => ⟨rfl, rfl, rfl, rfl, rfl⟩

/-- C4: for every non-empty list of validity claims the consensus step
returns the most frequent validity-period label — the first-seen label
among those tied for the maximal count — with confidence
(count of winner / number of claims) × 0.9; for the empty list it yields
no result; and on the claims 3 Years / 3 Years / Annual the winner is
"3 Years" with confidence (2/3) × 0.9 = 0.6. -/
theorem c4_consensus_majority :
    (∀ data : List Claim, data ≠ [] →
      ∃ w, (data.map Claim.validity_period).find?
             (fun z => (data.map Claim.validity_period).count z
                         == maxCount (data.map Claim.validity_period)) = some w ∧
        (∀ x ∈ data.map Claim.validity_period,
           (data.map Claim.validity_period).count x
             ≤ (data.map Claim.validity_period).count w) ∧
        _find_consensus data =
          some (w, (((data.map Claim.validity_period).count w : ℚ)
                      / (data.length : ℚ)) * (9/10))) ∧
    _find_consensus [] = none ∧
    _find_consensus [⟨"3 Years", "u1"⟩, ⟨"3 Years", "u2"⟩, ⟨"Annual", "u3"⟩]
      = some ("3 Years", 3/5) := by
  refine ⟨?_, rfl, ?_⟩
  · intro data hdata
    have hmap : data.map Claim.validity_period ≠ [] := by
      simpa using hdata
    obtain ⟨w, hfind, hmc⟩ := most_common_spec (data.map Claim.validity_period) hmap
    have hw : (data.map Claim.validity_period).count w
        = maxCount (data.map Claim.validity_period) := by
      simpa using List.find?_some hfind
    refine ⟨w, hfind, ?_, ?_⟩
    · intro x hx
      have h1 := le_listMax (fun z => (data.map Claim.validity_period).count z) hx
      rw [hw]
      exact h1
    · unfold _find_consensus
      rw [if_neg (by simpa using hdata), hmc]
  · have h2 : most_common
        (([⟨"3 Years", "u1"⟩, ⟨"3 Years", "u2"⟩, ⟨"Annual", "u3"⟩] : List Claim).map
          Claim.validity_period) = some ("3 Years", 2) := rfl
    unfold _find_consensus
    rw [if_neg (by decide), h2]
    norm_num

/-- Witness for C4: the consensus of the example claim list exists and is
computed by the majority rule. -/
theorem c4_witness :
    (([⟨"3 Years", "u1"⟩, ⟨"3 Years", "u2"⟩, ⟨"Annual", "u3"⟩] : List Claim) ≠ []) ∧
    (_find_consensus [⟨"3 Years", "u1"⟩, ⟨"3 Years", "u2"⟩, ⟨"Annual", "u3"⟩]).isSome
      = true := by
  refine ⟨by simp, ?_⟩
  obtain ⟨w, _, _, hc⟩ := c4_consensus_majority.1
    [⟨"3 Years", "u1"⟩, ⟨"3 Years", "u2"⟩, ⟨"Annual", "u3"⟩] (by simp)
  rw [hc]
  rfl

/-- Concrete run used for C6: on any title whose first `ISO`-number match
is 9001 and application date string 2025-01-01, the regulatory strategy
wins with the 1095-day lead time. -/
lemma calc_iso9001 (e : LLMExtractor) (now : Int) (ss : List Source) (title : String)
    (h : findISO title.data = some "9001") :
    calculate_due_date e now ⟨title, .str "2025-01-01"⟩ ss =
      { due_date := toDay 2025 1 1 + 1095
        method := .regulatory_database
        confidence := 99/100
        validity_period := some "3 Years"
        source_urls := []
        calculation_notes := "Found in official regulatory database for ISO 9001."
        warning := none } := by
  have hreg : _try_regulatory_database title (toDay 2025 1 1) =
      some { due_date := toDay 2025 1 1 + 1095
             method := .regulatory_database
             confidence := 99/100
             validity_period := some "3 Years"
             source_urls := []
             calculation_notes := "Found in official regulatory database for ISO 9001."
             warning := none } := by
    unfold _try_regulatory_database _parse_certification_info
    rw [h]
    rfl
  show resolve_with_date e title (_parse_application_date now (.str "2025-01-01")) ss = _
  rw [show _parse_application_date now (.str "2025-01-01") = toDay 2025 1 1 from rfl]
  unfold resolve_with_date
  rw [hreg]
  simp only [acceptThresh]
  rw [if_pos (by norm_num [CONFIDENCE_THRESHOLDS])]

/-- Counterexample for C6: with ApplicationDate 2025-01-01 and title
"ISO 9001" the produced due date is not 2027-12-31. -/
theorem c6_counterexample :
    (calculate_due_date pureNoneExtractor 0 ⟨"ISO 9001", .str "2025-01-01"⟩ []).due_date
      ≠ toDay 2027 12 31 := by
  rw [calc_iso9001 pureNoneExtractor 0 [] "ISO 9001" rfl]
  decide

/-- C6 (amended): for ApplicationDate 2025-01-01 and an item whose
title's first ISO-number occurrence is "ISO 9001", the
regulatory-database strategy wins with lead time 1095 days; the result's
due date is ApplicationDate + 1095 days = 2028-01-01 (not 2027-12-31),
method REGULATORY_DATABASE, confidence 0.99. -/
theorem c6_regulatory_database_example :
    ∀ (e : LLMExtractor) (now : Int) (ss : List Source) (title : String),
      findISO title.data = some "9001" →
      (calculate_due_date e now ⟨title, .str "2025-01-01"⟩ ss).due_date
          = toDay 2025 1 1 + 1095 ∧
      toDay 2025 1 1 + 1095 = toDay 2028 1 1 ∧
      (calculate_due_date e now ⟨title, .str "2025-01-01"⟩ ss).method
          = CalculationMethod.regulatory_database ∧
      (calculate_due_date e now ⟨title, .str "2025-01-01"⟩ ss).confidence = 99/100 := by
  intro e now ss title h
  rw [calc_iso9001 e now ss title h]
  exact ⟨rfl, by decide, rfl, rfl⟩

/-- Witness for C6 (amended): the concrete run on title "ISO 9001". -/
theorem c6_witness :
    findISO ("ISO 9001" : String).data = some "9001" ∧
    (calculate_due_date pureNoneExtractor 0 ⟨"ISO 9001", .str "2025-01-01"⟩ []).due_date
      = toDay 2028 1 1 := by
  refine ⟨rfl, ?_⟩
  obtain ⟨h1, h2, _, _⟩ :=
    c6_regulatory_database_example pureNoneExtractor 0 [] "ISO 9001" rfl
  rw [h1, h2]

/-- C7: the period-to-offset conversion parses the leftmost integer of
the label (defaulting to 1 when there is none); if the label contains
"year" case-insensitively the offset is that integer times 365 days,
otherwise it is treated as months and the offset is the integer times
30 days. -/
theorem c7_period_to_offset :
    ∀ (start : Int) (period : String),
      (_calculate_from_validity_period start period =
         if hasSubstr (lowerStr period) "year" then
           start + (leading_int period : Int) * 365
         else
           start + (leading_int period : Int) * 30) ∧
      (firstNat period.data = none → leading_int period = 1) ∧
      (∀ n, firstNat period.data = some n → leading_int period = n) := by
  intro start period
  refine ⟨?_, ?_, ?_⟩
  · unfold _calculate_from_validity_period leading_int
    cases h : firstNat period.data <;> simp [h]
  · intro h
    unfold leading_int
    rw [h]
    rfl
  · intro n h
    unfold leading_int
    rw [h]
    rfl

/-- Witness for C7: a label with no integer defaults to magnitude 1, and
"Annual" (no "year" substring) maps to 30 days. -/
theorem c7_witness :
    firstNat ("Annual" : String).data = none ∧ leading_int "Annual" = 1 ∧
    _calculate_from_validity_period 0 "Annual" = 30 := by
  refine ⟨rfl, (c7_period_to_offset 0 "Annual").2.1 rfl, ?_⟩
  rw [(c7_period_to_offset 0 "Annual").1]
  rfl

/-- C8: the LLM-extraction strategy first filters the input documents to
those whose URL matches the official allow-list, extraction consumes at
most the first 3 qualifying documents, and if no document qualifies the
strategy yields no result. -/
theorem c8_official_filter_and_cap :
    ∀ (e : LLMExtractor) (title : String) (d : Int) (ss : List Source),
      (_filter_official_sources ss = [] →
         _try_llm_extraction e title d ss = .ok none) ∧
      (_try_llm_extraction e title d ss =
         _try_llm_extraction e title d (_filter_official_sources ss)) ∧
      (_try_llm_extraction e title d ss =
         _try_llm_extraction e title d ((_filter_official_sources ss).take 3)) ∧
      (∀ s ∈ _filter_official_sources ss, isOfficialURL s.url = true) := by
  intro e title d ss
  have hidem : _filter_official_sources (_filter_official_sources ss)
      = _filter_official_sources ss := by
    simp [_filter_official_sources, List.filter_filter]
  have htake : _filter_official_sources ((_filter_official_sources ss).take 3)
      = (_filter_official_sources ss).take 3 := by
    apply List.filter_eq_self.mpr
    intro a ha
    exact (List.mem_filter.mp (List.take_subset 3 _ ha)).2
  have htt : ((_filter_official_sources ss).take 3).take 3
      = (_filter_official_sources ss).take 3 := by
    rw [List.take_take]
    norm_num
  have hie : ((_filter_official_sources ss).take 3).isEmpty
      = (_filter_official_sources ss).isEmpty := by
    cases (_filter_official_sources ss) <;> rfl
  refine ⟨?_, ?_, ?_, ?_⟩
  · intro h
    simp only [_try_llm_extraction, h]
    rfl
  · simp only [_try_llm_extraction, hidem]
  · simp only [_try_llm_extraction, htake, htt, hie]
  · intro s hs
    exact (List.mem_filter.mp hs).2

/-- Witness for C8: a single non-official document is filtered out and
the strategy declines. -/
theorem c8_witness :
    _filter_official_sources [⟨"http://example.com/a", "c"⟩] = [] ∧
    _try_llm_extraction pureNoneExtractor "T" 0 [⟨"http://example.com/a", "c"⟩]
      = .ok none := by
  refine ⟨rfl, ?_⟩
  exact (c8_official_filter_and_cap pureNoneExtractor "T" 0
    [⟨"http://example.com/a", "c"⟩]).1 rfl

/-- Concrete run used for C9: an unparseable application date falls back
to the clock, and with no standard match, no sources and the India
mapping default, the static-mapping result is clock-dependent. -/
lemma calc_X_garbage (e : LLMExtractor) (now : Int) :
    calculate_due_date e now ⟨"X", .str "garbage"⟩ [] =
      { due_date := now + 30
        method := .static_mapping
        confidence := 3/5
        validity_period := some "Default mapping"
        source_urls := []
        calculation_notes := "Used static default lead times as fallback."
        warning := none } := by
  unfold calculate_due_date resolve_with_date
  rw [hist_none]
  rfl

/-- Counterexample for C9: two calls with the identical item (whose
application date does not parse) and identical sources, made at different
clock times, give different results. -/
theorem c9_counterexample :
    calculate_due_date pureNoneExtractor 0 ⟨"X", .str "garbage"⟩ [] ≠
      calculate_due_date pureNoneExtractor 1 ⟨"X", .str "garbage"⟩ [] := by
  rw [calc_X_garbage, calc_X_garbage]
  intro h
  exact absurd (congrArg DueDateResult.due_date h) (by decide)

/-- C9 (amended): whenever the item's application date parses without the
clock fallback (a datetime, a date, or a string accepted by the
`%Y-%m-%d` parse), `calculate_due_date` is a deterministic function of
the item, the sources and the (pure) extractor: the clock value is
irrelevant. -/
theorem c9_deterministic_when_date_parses :
    ∀ (e : LLMExtractor) (now1 now2 : Int) (item : Item) (ss : List Source),
      date_input_parses item.application_date = true →
      calculate_due_date e now1 item ss = calculate_due_date e now2 item ss := by
  intro e now1 now2 item ss h
  unfold calculate_due_date
  rw [parse_indep h now1 now2]

/-- Witness for C9 (amended): a parsing date makes the result independent
of the clock. -/
theorem c9_witness :
    date_input_parses (DateInput.str "2025-01-01") = true ∧
    calculate_due_date pureNoneExtractor 0 ⟨"GST Compliance", .str "2025-01-01"⟩ [] =
      calculate_due_date pureNoneExtractor 99 ⟨"GST Compliance", .str "2025-01-01"⟩ [] :=
  ⟨rfl, c9_deterministic_when_date_parses pureNoneExtractor 0 99
    ⟨"GST Compliance", .str "2025-01-01"⟩ [] rfl⟩

/-- C10: no run of `calculate_due_date` ever returns a result with method
HISTORICAL_ANALYSIS: the historical strategy is invoked on a hard-coded
empty history, the analyzer stub reports confidence 0.0 (with median 365
days), 0.0 is below the internal 0.5 cutoff, so strategy 3 always
declines. -/
theorem c10_historical_never_selected :
    (∀ (e : LLMExtractor) (now : Int) (item : Item) (ss : List Source),
       (calculate_due_date e now item ss).method
         ≠ CalculationMethod.historical_analysis) ∧
    analyze_processing_times [] = ⟨0, 365⟩ ∧
    ((0:ℚ) < 1/2) ∧
    (∀ d : Int, _try_historical_analysis d = none) := by
  refine ⟨?_, rfl, by norm_num, hist_none⟩
  intro e now item ss
  unfold calculate_due_date
  exact resolve_with_date_cases
    (fun r => r.method ≠ CalculationMethod.historical_analysis)
    e item.title _ ss
    (fun r h => by
      show r.method ≠ CalculationMethod.historical_analysis
      rw [(try_reg_some h).1]; decide)
    (fun r h => by
      show r.method ≠ CalculationMethod.historical_analysis
      rw [(try_llm_some h).1]; decide)
    (fun r h => by rw [hist_none] at h; exact absurd h (by simp))
    (fun r h => by
      show r.method ≠ CalculationMethod.historical_analysis
      rw [(try_static_some h).1]; decide)
    (by
      show (_conservative_default _).method ≠ CalculationMethod.historical_analysis
      simp [_conservative_default])

/-- Witness for C10: a concrete run resolves by static mapping, not by
historical analysis. -/
theorem c10_witness :
    ¬ ((calculate_due_date pureNoneExtractor 0 ⟨"X", DateInput.str "garbage"⟩ []).method
        = CalculationMethod.historical_analysis) :=
  c10_historical_never_selected.1 pureNoneExtractor 0 ⟨"X", DateInput.str "garbage"⟩ []

end ISONotifier
